import Mathlib

/-!
Shallow embedding of the weather-event flight-training core
(`core/src/weather/safety.rs`, `core/src/ai/reschedule.rs`,
`server/src/scheduler.rs`).

Modelling conventions: the Rust floating-point values (f32/f64) are modelled
as rationals — every operation the embedded code performs on them is a
comparison against a constant, or exact-in-spirit arithmetic whose results
only feed comparisons; timestamps (`chrono::DateTime<Utc>`) are integers in
seconds since the Unix epoch, and `chrono::Duration` values are integer
second counts.
-/

namespace FlightWeather

/-- models.rs: training level of a student pilot. -/
inductive TrainingLevel where
  | StudentPilot
  | PrivatePilot
  | InstrumentRated
  deriving DecidableEq, BEq, Repr

/-- models.rs: status of a booking. -/
inductive BookingStatus where
  | Scheduled
  | Cancelled
  | Rescheduled
  | Completed
  deriving DecidableEq, BEq, Repr

/-- models.rs: geographic location with coordinates. -/
structure Location where
  lat : ℚ
  lon : ℚ
  name : String
  deriving DecidableEq, Repr

/-- models.rs: student pilot information. -/
structure Student where
  id : String
  name : String
  email : String
  phone : String
  training_level : TrainingLevel
  deriving DecidableEq, Repr

/-- models.rs: flight booking. -/
structure Booking where
  id : String
  student_id : String
  scheduled_date : Int
  departure_location : Location
  status : BookingStatus
  deriving DecidableEq, Repr

/-- models.rs: weather minimums for each training level. -/
structure WeatherMinimum where
  id : String
  training_level : TrainingLevel
  min_visibility_sm : ℚ
  max_wind_speed_kt : ℚ
  min_ceiling_ft : Option ℚ
  allow_imc : Bool
  no_thunderstorms : Bool
  no_icing : Bool
  deriving DecidableEq, Repr

/-- weather/api.rs: weather data normalized to aviation units. -/
structure WeatherData where
  visibility_miles : ℚ
  wind_speed_knots : ℚ
  ceiling_ft : Option ℚ
  temperature_f : ℚ
  conditions : String
  has_thunderstorms : Bool
  has_icing : Bool
  date_time : Int
  deriving DecidableEq, Repr

/-- Rust `{:?}` (Debug) rendering of a `TrainingLevel` variant. -/
def TrainingLevel.debugStr : TrainingLevel → String
  | .StudentPilot => "StudentPilot"
  | .PrivatePilot => "PrivatePilot"
  | .InstrumentRated => "InstrumentRated"

/-- Nearest integer with ties to even, the rounding Rust float formatting
applies when a precision is requested. -/
def roundHalfEven (q : ℚ) : Int :=
  let f : Int := ⌊q⌋
  let frac : ℚ := q - (f : ℚ)
  if frac < 1/2 then f
  else if 1/2 < frac then f + 1
  else if f % 2 = 0 then f else f + 1

/-- Rust `{:.1}` formatting of a float: one decimal place. -/
def fmtF1 (q : ℚ) : String :=
  let n := roundHalfEven (q * 10)
  let sgn := if n < 0 then "-" else ""
  sgn ++ toString (n.natAbs / 10) ++ "." ++ toString (n.natAbs % 10)

/-- Rust `{:.0}` formatting of a float: rounded to an integer. -/
def fmtF0 (q : ℚ) : String :=
  toString (roundHalfEven q)

/-! ## safety.rs — weather scoring constants -/

def PERFECT_SCORE : ℚ := 10
def THUNDERSTORM_PENALTY : ℚ := 5
def ICING_PENALTY : ℚ := 3
def IDEAL_VISIBILITY_MI : ℚ := 10
def VISIBILITY_PENALTY_FACTOR : ℚ := 2
def CALM_WIND_KT : ℚ := 5
def MAX_WIND_PENALTY_KT : ℚ := 15
def WIND_PENALTY_FACTOR : ℚ := 2
def IDEAL_CEILING_FT : ℚ := 5000
def CEILING_PENALTY_FACTOR : ℚ := 2
def STUDENT_HIGH_WIND_THRESHOLD_KT : ℚ := 10
def STUDENT_HIGH_WIND_PENALTY : ℚ := 2

/-- safety.rs `is_flight_safe`, the `reasons` vector: every violated rule's
message, accumulated in rule-evaluation order.  The `min_ceiling_ft` check
with an absent sample ceiling and IMC disallowed is the conservative no-op
branch of the source (it pushes nothing). -/
def flightReasons (training_level : TrainingLevel) (weather : WeatherData)
    (minimums : WeatherMinimum) : List String :=
  (if minimums.no_thunderstorms && weather.has_thunderstorms then
      ["Thunderstorms present"] else [])
  ++ (if minimums.no_icing && weather.has_icing then
      ["Icing conditions present"] else [])
  ++ (if weather.visibility_miles < minimums.min_visibility_sm then
      ["Visibility " ++ fmtF1 weather.visibility_miles ++ "mi below minimum "
        ++ fmtF1 minimums.min_visibility_sm ++ "mi for " ++ training_level.debugStr]
      else [])
  ++ (if weather.wind_speed_knots > minimums.max_wind_speed_kt then
      ["Wind speed " ++ fmtF1 weather.wind_speed_knots ++ "kt exceeds maximum "
        ++ fmtF1 minimums.max_wind_speed_kt ++ "kt for " ++ training_level.debugStr]
      else [])
  ++ (match minimums.min_ceiling_ft, weather.ceiling_ft with
      | some min_ceiling, some ceiling =>
        if ceiling < min_ceiling then
          ["Ceiling " ++ fmtF0 ceiling ++ "ft below minimum " ++ fmtF0 min_ceiling
            ++ "ft for " ++ training_level.debugStr]
        else []
      | some _, none => []
      | none, _ => [])
  ++ (match training_level, weather.ceiling_ft with
      | .StudentPilot, some ceiling =>
        if ceiling < 3000 then
          ["Ceiling " ++ fmtF0 ceiling ++ "ft too low for student pilot (minimum 3000ft)"]
        else []
      | _, _ => [])
  ++ (if minimums.allow_imc then []
      else match weather.ceiling_ft with
      | some ceiling =>
        if ceiling < 1000 ∨ weather.visibility_miles < 3 then
          ["IMC conditions not allowed for this training level"]
        else []
      | none => [])

/-- safety.rs: check if flight is safe for the given training level and
weather conditions; returns (is_safe, reason if unsafe). -/
def is_flight_safe (training_level : TrainingLevel) (weather : WeatherData)
    (minimums : WeatherMinimum) : Bool × Option String :=
  let reasons := flightReasons training_level weather minimums
  if reasons.isEmpty then (true, none)
  else (false, some (String.intercalate "; " reasons))

/-- safety.rs `calculate_weather_score`: deduct for thunderstorms. -/
def scoreThunderstorms (weather : WeatherData) (score : ℚ) : ℚ :=
  if weather.has_thunderstorms then score - THUNDERSTORM_PENALTY else score

/-- safety.rs `calculate_weather_score`: deduct for icing. -/
def scoreIcing (weather : WeatherData) (score : ℚ) : ℚ :=
  if weather.has_icing then score - ICING_PENALTY else score

/-- safety.rs `calculate_weather_score`: deduct for poor visibility. -/
def scoreVisibility (weather : WeatherData) (score : ℚ) : ℚ :=
  if weather.visibility_miles < IDEAL_VISIBILITY_MI then
    score - ((IDEAL_VISIBILITY_MI - weather.visibility_miles) / IDEAL_VISIBILITY_MI)
      * VISIBILITY_PENALTY_FACTOR
  else score

/-- safety.rs `calculate_weather_score`: deduct for high winds. -/
def scoreWind (weather : WeatherData) (score : ℚ) : ℚ :=
  if weather.wind_speed_knots > CALM_WIND_KT then
    score - (min (weather.wind_speed_knots - CALM_WIND_KT) MAX_WIND_PENALTY_KT
      / MAX_WIND_PENALTY_KT) * WIND_PENALTY_FACTOR
  else score

/-- safety.rs `calculate_weather_score`: deduct for low ceiling. -/
def scoreCeiling (weather : WeatherData) (score : ℚ) : ℚ :=
  match weather.ceiling_ft with
  | some ceiling =>
    if ceiling < IDEAL_CEILING_FT then
      score - ((IDEAL_CEILING_FT - ceiling) / IDEAL_CEILING_FT) * CEILING_PENALTY_FACTOR
    else score
  | none => score

/-- safety.rs `calculate_weather_score`: student pilots need better
conditions. -/
def scoreStudentWind (training_level : TrainingLevel) (weather : WeatherData)
    (score : ℚ) : ℚ :=
  match training_level with
  | .StudentPilot =>
    if weather.wind_speed_knots > STUDENT_HIGH_WIND_THRESHOLD_KT then
      score - STUDENT_HIGH_WIND_PENALTY
    else score
  | _ => score

/-- safety.rs: calculate weather score from 0-10 for AI ranking
(10 = perfect conditions, 0 = terrible conditions); the sequential
deductions of the source are the step functions above, applied in
statement order, with the final clamp `score.max(0.0).min(PERFECT_SCORE)`. -/
def calculate_weather_score (training_level : TrainingLevel)
    (weather : WeatherData) : ℚ :=
  let score := PERFECT_SCORE
  let score := scoreThunderstorms weather score
  let score := scoreIcing weather score
  let score := scoreVisibility weather score
  let score := scoreWind weather score
  let score := scoreCeiling weather score
  let score := scoreStudentWind training_level weather score
  min (max score 0) PERFECT_SCORE

/-- safety.rs `default_weather_minimums`: the StudentPilot entry. -/
def studentMinimums : WeatherMinimum :=
  { id := "default_student"
    training_level := .StudentPilot
    min_visibility_sm := 5
    max_wind_speed_kt := 12
    min_ceiling_ft := some 3000
    allow_imc := false
    no_thunderstorms := true
    no_icing := true }

/-- safety.rs `default_weather_minimums`: the PrivatePilot entry. -/
def privateMinimums : WeatherMinimum :=
  { id := "default_private"
    training_level := .PrivatePilot
    min_visibility_sm := 3
    max_wind_speed_kt := 20
    min_ceiling_ft := some 1000
    allow_imc := false
    no_thunderstorms := true
    no_icing := true }

/-- safety.rs `default_weather_minimums`: the InstrumentRated entry. -/
def instrumentMinimums : WeatherMinimum :=
  { id := "default_instrument"
    training_level := .InstrumentRated
    min_visibility_sm := 1
    max_wind_speed_kt := 30
    min_ceiling_ft := none
    allow_imc := true
    no_thunderstorms := true
    no_icing := true }

/-- safety.rs: default weather minimums for each training level, as the
(key, value) insertions into the hash map. -/
def default_weather_minimums : List (TrainingLevel × WeatherMinimum) :=
  [ (.StudentPilot, studentMinimums),
    (.PrivatePilot, privateMinimums),
    (.InstrumentRated, instrumentMinimums) ]

/-- Hash-map lookup (`minimums.get(&level)`) on the default minimums. -/
def defaultMinimumsFor (level : TrainingLevel) : Option WeatherMinimum :=
  default_weather_minimums.lookup level

/-! ## ai/reschedule.rs -/

/-- reschedule.rs: one reschedule suggestion. -/
structure RescheduleOption where
  date_time : Int
  reason : String
  weather_score : ℚ
  instructor_available : Bool
  deriving DecidableEq, Repr

/-- reschedule.rs: the parsed response shape. -/
structure RescheduleResponse where
  options : List RescheduleOption
  deriving DecidableEq, Repr

/-- The `AiCache` hash-map contents: key to (response, insertion time).  The
HashMap behind the RwLock is modelled as an association list in which an
insert replaces any previous binding of the key. -/
abbrev CacheMap := List (String × RescheduleResponse × Int)

/-- reschedule.rs AiCache: ttl_hours as set by `AiCache::new`. -/
def AiCache.ttl_hours : Int := 6

/-- chrono `Duration::num_hours` of a duration given in seconds: whole
hours, truncated toward zero. -/
def num_hours (secs : Int) : Int := Int.tdiv secs 3600

/-- reschedule.rs `AiCache::get`, evaluated at current time `now`. -/
def AiCache.get (cache : CacheMap) (key : String) (now : Int) :
    Option RescheduleResponse :=
  match cache.lookup key with
  | some (response, timestamp) =>
    if num_hours (now - timestamp) < AiCache.ttl_hours then some response else none
  | none => none

/-- reschedule.rs `AiCache::set`, evaluated at current time `now` (hash-map
insert replaces the previous binding of the key). -/
def AiCache.set (cache : CacheMap) (key : String) (response : RescheduleResponse)
    (now : Int) : CacheMap :=
  (key, response, now) :: cache.filter (fun e => e.1 != key)

/-- reschedule.rs `AiCache::clear_expired`, evaluated at current time `now`. -/
def AiCache.clear_expired (cache : CacheMap) (now : Int) : CacheMap :=
  cache.filter (fun e => num_hours (now - e.2.2) < AiCache.ttl_hours)

/-- Two-digit zero padding of a number, for timestamp rendering. -/
def pad2 (n : Nat) : String :=
  if n < 10 then "0" ++ toString n else toString n

/-- Four-digit zero padding of a year, for timestamp rendering. -/
def pad4 (z : Int) : String :=
  let sgn := if z < 0 then "-" else ""
  let a := z.natAbs
  sgn ++ (if a < 10 then "000" else if a < 100 then "00" else if a < 1000 then "0" else "")
    ++ toString a

/-- Gregorian civil date (year, month, day) from days since 1970-01-01,
the standard days-to-civil algorithm used by calendar libraries (chrono). -/
def civilFromDays (z0 : Int) : Int × Nat × Nat :=
  let z := z0 + 719468
  let era : Int := z.fdiv 146097
  let doe : Nat := (z - era * 146097).toNat
  let yoe : Nat := (doe - doe / 1460 + doe / 36524 - doe / 146096) / 365
  let y : Int := (yoe : Int) + era * 400
  let doy : Nat := doe - (365 * yoe + yoe / 4 - yoe / 100)
  let mp : Nat := (5 * doy + 2) / 153
  let d : Nat := doy - (153 * mp + 2) / 5 + 1
  let m : Nat := if mp < 10 then mp + 3 else mp - 9
  (if m ≤ 2 then y + 1 else y, m, d)

/-- chrono format `"%Y-%m-%d %H:%M"` of an epoch-seconds timestamp. -/
def formatYmdHm (t : Int) : String :=
  let days : Int := t.fdiv 86400
  let sod : Nat := (t - days * 86400).toNat
  let ymd := civilFromDays days
  pad4 ymd.1 ++ "-" ++ pad2 ymd.2.1 ++ "-" ++ pad2 ymd.2.2 ++ " "
    ++ pad2 (sod / 3600) ++ ":" ++ pad2 (sod % 3600 / 60)

/-- reschedule.rs `build_prompt`: the structured request text sent to the
external generation service.  The `_instructor_schedule` argument is unused
in the source. -/
def build_prompt (booking : Booking) (student : Student)
    (weather_forecast : List WeatherData) (_instructor_schedule : List Booking) :
    String :=
  let weather_summary := String.intercalate "\n"
    ((weather_forecast.take 7).map (fun w =>
      formatYmdHm w.date_time ++ ": vis " ++ fmtF1 w.visibility_miles ++ "mi, wind "
        ++ fmtF1 w.wind_speed_knots ++ "kt, temp " ++ fmtF0 w.temperature_f ++ "°F, "
        ++ w.conditions))
  "Flight booking needs rescheduling due to weather conflict.\n\nStudent: "
    ++ student.name ++ " (Training Level: " ++ student.training_level.debugStr
    ++ ")\nOriginal booking: " ++ formatYmdHm booking.scheduled_date ++ " UTC"
    ++ "\nDeparture location: " ++ booking.departure_location.name
    ++ "\n\n7-day weather forecast:\n" ++ weather_summary
    ++ "\n\nPlease suggest 3 alternative times for rescheduling this flight lesson. Consider:\n1. Weather conditions suitable for "
    ++ student.training_level.debugStr
    ++ " training level\n2. Time of day (prefer daylight hours)\n3. Spread options across different days\n\nReturn JSON with this exact structure:\n\x7b\n  \"options\": [\n    \x7b\n      \"date_time\": \"2024-01-15T14:00:00Z\",\n      \"reason\": \"Clear skies with light winds, excellent training conditions\",\n      \"weather_score\": 9.5,\n      \"instructor_available\": true\n    \x7d\n  ]\n\x7d\n"

/-- reschedule.rs `generate_fallback_options`, first loop: scan the forecast
samples (the caller passes the first 14), breaking once 3 options are
collected, and collect each safe sample as a good-weather option. -/
def collectGoodOptions (level : TrainingLevel) (minimums : WeatherMinimum) :
    List WeatherData → List RescheduleOption → List RescheduleOption
  | [], options => options
  | weather :: rest, options =>
    if options.length ≥ 3 then options
    else if (is_flight_safe level weather minimums).1 then
      collectGoodOptions level minimums rest (options ++
        [{ date_time := weather.date_time
           reason := "Good weather conditions: " ++ weather.conditions ++ " with "
             ++ fmtF0 weather.wind_speed_knots ++ "kt winds"
           weather_score := calculate_weather_score level weather
           instructor_available := true }])
    else collectGoodOptions level minimums rest options

/-- reschedule.rs `generate_fallback_options`, second loop: the
marginal-conditions option built from one forecast sample. -/
def marginalOption (level : TrainingLevel) (weather : WeatherData) :
    RescheduleOption :=
  { date_time := weather.date_time
    reason := "Marginal conditions: " ++ weather.conditions
    weather_score := calculate_weather_score level weather
    instructor_available := true }

/-- reschedule.rs `generate_fallback_options`, final while loop: the
placeholder option pushed when the option list currently has
`days_ahead - 1` entries (the source sets days_ahead = options.len() + 1;
Duration::days(n) is n * 86400 seconds). -/
def placeholderOption (booking : Booking) (days_ahead : Nat) : RescheduleOption :=
  { date_time := booking.scheduled_date + (days_ahead : Int) * 86400
    reason := "Please contact your instructor to schedule - limited weather data available"
    weather_score := 5
    instructor_available := false }

/-- reschedule.rs `generate_fallback_options`, final while loop, one
iteration bound: `while options.len() < 3` appends one placeholder per
iteration, so it runs at most 3 times; `padLoop` is the loop with that
iteration bound made explicit as structural fuel. -/
def padLoop (booking : Booking) : Nat → List RescheduleOption → List RescheduleOption
  | 0, options => options
  | fuel + 1, options =>
    if options.length < 3 then
      padLoop booking fuel (options ++ [placeholderOption booking (options.length + 1)])
    else options

/-- reschedule.rs `generate_fallback_options`, final while loop: pad with
placeholder options until there are 3. -/
def padPlaceholders (booking : Booking) (options : List RescheduleOption) :
    List RescheduleOption :=
  padLoop booking 3 options

/-- reschedule.rs `generate_fallback_options`: the deterministic rule-based
fallback.  The `_instructor_schedule` argument is unused in the source. -/
def generate_fallback_options (booking : Booking) (student : Student)
    (weather_forecast : List WeatherData) (_instructor_schedule : List Booking) :
    Except String (List RescheduleOption) :=
  match defaultMinimumsFor student.training_level with
  | none => .error "No minimums for training level"
  | some student_minimums =>
    let options := collectGoodOptions student.training_level student_minimums
      (weather_forecast.take 14) []
    let options :=
      if options.length < 3 then
        options ++ ((weather_forecast.drop options.length).take (3 - options.length)).map
          (marginalOption student.training_level)
      else options
    .ok (padPlaceholders booking options)

/-- Result of `generate_reschedule_options`: the returned options together
with the cache contents afterwards. -/
structure GenResult where
  options : List RescheduleOption
  cache : CacheMap
  deriving DecidableEq, Repr

/-- reschedule.rs `generate_reschedule_options`.  The outcome of the external
generation attempt (`generate_with_ai`: HTTP call plus JSON parsing) is
passed in as `ai_result`; `now` is the current time, read by the cache. -/
def generate_reschedule_options (cache : CacheMap) (now : Int)
    (ai_result : Except String (List RescheduleOption))
    (booking : Booking) (student : Student) (weather_forecast : List WeatherData)
    (instructor_schedule : List Booking) : Except String GenResult :=
  let cache_key := booking.id ++ "_" ++ toString booking.scheduled_date
  let hit :=
    match AiCache.get cache cache_key now with
    | some cached => if cached.options.length ≥ 3 then some cached.options else none
    | none => none
  match hit with
  | some options => .ok ⟨options, cache⟩
  | none =>
    match ai_result with
    | .ok options =>
      if options.length ≥ 3 then
        .ok ⟨options, AiCache.set cache cache_key ⟨options⟩ now⟩
      else
        (generate_fallback_options booking student weather_forecast
          instructor_schedule).map (fun opts => ⟨opts, cache⟩)
    | .error _ =>
      (generate_fallback_options booking student weather_forecast
        instructor_schedule).map (fun opts => ⟨opts, cache⟩)

/-! ## server/src/scheduler.rs -/

/-- scheduler.rs: alert severity. -/
inductive AlertSeverity where
  | Severe
  | High
  | Moderate
  | Low
  | Clear
  deriving DecidableEq, Repr

/-- scheduler.rs `determine_severity`. -/
def determine_severity (score : ℚ) (weather : WeatherData) : AlertSeverity :=
  if weather.has_thunderstorms then .Severe
  else if weather.visibility_miles < 1 then .Severe
  else if score < 4 then .Severe
  else if score < 6 then .High
  else if score < 7.5 then .Moderate
  else if score < 9 then .Low
  else .Clear

/-- scheduler.rs `severity_to_string`. -/
def severity_to_string : AlertSeverity → String
  | .Severe => "severe"
  | .High => "high"
  | .Moderate => "moderate"
  | .Low => "low"
  | .Clear => "clear"

/-- scheduler.rs `generate_weather_alerts`, per-booking emission guard: an
alert record is inserted and a notification published exactly when
`score < 9.0` holds of the booking's computed weather score. -/
def alertEmitted (training_level : TrainingLevel) (weather : WeatherData) : Bool :=
  decide (calculate_weather_score training_level weather < 9)

/-! ## Concrete inputs used by the concrete-instance theorems -/

/-- A concrete weather sample (mirrors the `create_test_weather` helper of
the source's test module). -/
def mkSample (vis wind : ℚ) (ceiling : Option ℚ) (ts ic : Bool) (t : Int) :
    WeatherData :=
  { visibility_miles := vis
    wind_speed_knots := wind
    ceiling_ft := ceiling
    temperature_f := 65
    conditions := "Clear"
    has_thunderstorms := ts
    has_icing := ic
    date_time := t }

/-- A concrete booking scheduled at epoch 0. -/
def cexBooking : Booking :=
  { id := "test123"
    student_id := "student1"
    scheduled_date := 0
    departure_location := { lat := 0, lon := 0, name := "KTOA" }
    status := .Scheduled }

/-- A concrete student-pilot student. -/
def cexStudent : Student :=
  { id := "student1"
    name := "John Doe"
    email := "john@example.com"
    phone := "+1234567890"
    training_level := .StudentPilot }

/-- Forecast whose first sample is unsafe and whose second is safe for the
student level: the good-weather phase collects the sample at position 1,
and the marginal phase then starts scanning at position 1 again. -/
def cexForecastReuse : List WeatherData :=
  [mkSample 0 0 (some 5000) false false 1000,
   mkSample 10 5 (some 5000) false false 2000]

/-- A single-sample forecast whose sample is unsafe for the student level. -/
def cexForecastShort : List WeatherData :=
  [mkSample 0 0 (some 5000) false false 1000]

/-- A reschedule option used to build an external-generation response of
four options. -/
def cexOption : RescheduleOption :=
  { date_time := 86400
    reason := "Clear skies"
    weather_score := 9
    instructor_available := true }

/-- Minimums with IMC disallowed but no ceiling floor and permissive other
limits: isolates the IMC-proxy rule of `is_flight_safe`. -/
def cexImcMinimums : WeatherMinimum :=
  { id := "test"
    training_level := .PrivatePilot
    min_visibility_sm := 1
    max_wind_speed_kt := 100
    min_ceiling_ft := none
    allow_imc := false
    no_thunderstorms := true
    no_icing := true }

/-! ## Helper lemmas -/

lemma is_flight_safe_fst (l : TrainingLevel) (w : WeatherData) (m : WeatherMinimum) :
    (is_flight_safe l w m).1 = (flightReasons l w m).isEmpty := by
  simp only [is_flight_safe]
  split <;> simp_all

lemma safe_iff_reasons_nil (l : TrainingLevel) (w : WeatherData) (m : WeatherMinimum) :
    (is_flight_safe l w m).1 = true ↔ flightReasons l w m = [] := by
  rw [is_flight_safe_fst, List.isEmpty_iff]

lemma scoreThunderstorms_le (w : WeatherData) (s : ℚ) : scoreThunderstorms w s ≤ s := by
  unfold scoreThunderstorms THUNDERSTORM_PENALTY
  split_ifs <;> linarith

lemma scoreIcing_le (w : WeatherData) (s : ℚ) : scoreIcing w s ≤ s := by
  unfold scoreIcing ICING_PENALTY
  split_ifs <;> linarith

lemma scoreVisibility_le (w : WeatherData) (s : ℚ) : scoreVisibility w s ≤ s := by
  unfold scoreVisibility IDEAL_VISIBILITY_MI VISIBILITY_PENALTY_FACTOR
  split_ifs with h
  · linarith
  · linarith

lemma scoreWind_le (w : WeatherData) (s : ℚ) : scoreWind w s ≤ s := by
  unfold scoreWind CALM_WIND_KT MAX_WIND_PENALTY_KT WIND_PENALTY_FACTOR
  split_ifs with h
  · rcases min_cases (w.wind_speed_knots - 5) 15 with ⟨he, _⟩ | ⟨he, _⟩ <;> rw [he] <;>
      linarith
  · linarith

lemma scoreCeiling_le (w : WeatherData) (s : ℚ) : scoreCeiling w s ≤ s := by
  unfold scoreCeiling IDEAL_CEILING_FT CEILING_PENALTY_FACTOR
  cases w.ceiling_ft with
  | none => simp
  | some c =>
    simp only
    split_ifs <;> linarith

lemma scoreStudentWind_le (l : TrainingLevel) (w : WeatherData) (s : ℚ) :
    scoreStudentWind l w s ≤ s := by
  unfold scoreStudentWind STUDENT_HIGH_WIND_PENALTY
  cases l <;> simp only <;> (try split_ifs) <;> linarith

lemma score_steps_le (l : TrainingLevel) (w : WeatherData) (s : ℚ) :
    scoreStudentWind l w (scoreCeiling w (scoreWind w (scoreVisibility w (scoreIcing w
      (scoreThunderstorms w s))))) ≤ s :=
  le_trans (scoreStudentWind_le _ _ _) <| le_trans (scoreCeiling_le _ _) <|
    le_trans (scoreWind_le _ _) <| le_trans (scoreVisibility_le _ _) <|
    le_trans (scoreIcing_le _ _) (scoreThunderstorms_le _ _)

lemma score_lt_nine_of_thunderstorms (l : TrainingLevel) (w : WeatherData)
    (h : w.has_thunderstorms = true) : calculate_weather_score l w < 9 := by
  simp only [calculate_weather_score, PERFECT_SCORE]
  refine lt_of_le_of_lt (min_le_left _ _) (max_lt ?_ (by norm_num))
  have h5 : scoreThunderstorms w 10 = 5 := by
    unfold scoreThunderstorms THUNDERSTORM_PENALTY
    rw [h]
    norm_num
  calc scoreStudentWind l w (scoreCeiling w (scoreWind w (scoreVisibility w (scoreIcing w
        (scoreThunderstorms w 10)))))
      ≤ scoreThunderstorms w 10 := by
        conv_rhs => rw [h5]
        rw [h5]
        exact le_trans (scoreStudentWind_le _ _ _) <| le_trans (scoreCeiling_le _ _) <|
          le_trans (scoreWind_le _ _) <| le_trans (scoreVisibility_le _ _) <|
          le_trans (scoreIcing_le _ _) le_rfl
    _ < 9 := by rw [h5]; norm_num

lemma score_lt_nine_of_low_visibility (l : TrainingLevel) (w : WeatherData)
    (h : w.visibility_miles < 1) : calculate_weather_score l w < 9 := by
  simp only [calculate_weather_score, PERFECT_SCORE]
  refine lt_of_le_of_lt (min_le_left _ _) (max_lt ?_ (by norm_num))
  have hvis : ∀ s : ℚ, scoreVisibility w s < s - 9/5 := by
    intro s
    unfold scoreVisibility IDEAL_VISIBILITY_MI VISIBILITY_PENALTY_FACTOR
    rw [if_pos (by linarith)]
    have : (10 - w.visibility_miles) / 10 * 2 > 9/5 := by linarith
    linarith
  calc scoreStudentWind l w (scoreCeiling w (scoreWind w (scoreVisibility w (scoreIcing w
        (scoreThunderstorms w 10)))))
      ≤ scoreVisibility w (scoreIcing w (scoreThunderstorms w 10)) :=
        le_trans (scoreStudentWind_le _ _ _) <| le_trans (scoreCeiling_le _ _)
          (scoreWind_le _ _)
    _ < scoreIcing w (scoreThunderstorms w 10) - 9/5 := hvis _
    _ ≤ 10 - 9/5 := by
        have := le_trans (scoreIcing_le w (scoreThunderstorms w 10))
          (scoreThunderstorms_le w 10)
        linarith
    _ < 9 := by norm_num

lemma padPlaceholders_eq (b : Booking) (options : List RescheduleOption) :
    padPlaceholders b options = options ++ (List.range (3 - options.length)).map
      (fun i => placeholderOption b (options.length + 1 + i)) := by
  match options with
  | [] => simp [padPlaceholders, padLoop, List.range_succ]
  | [a] => simp [padPlaceholders, padLoop, List.range_succ]
  | [a, a2] => simp [padPlaceholders, padLoop, List.range_succ]
  | a :: a2 :: a3 :: t =>
    have h : 3 - (a :: a2 :: a3 :: t).length = 0 := by simp
    simp [padPlaceholders, padLoop, h]

lemma collectGoodOptions_length_le (l : TrainingLevel) (m : WeatherMinimum) :
    ∀ (ws : List WeatherData) (acc : List RescheduleOption), acc.length ≤ 3 →
      (collectGoodOptions l m ws acc).length ≤ 3
  | [], acc, h => h
  | w :: rest, acc, h => by
    rw [collectGoodOptions]
    split_ifs with h3 hs
    · exact h
    · exact collectGoodOptions_length_le l m rest _ (by simp; omega)
    · exact collectGoodOptions_length_le l m rest acc h

lemma collectGoodOptions_all_avail (l : TrainingLevel) (m : WeatherMinimum) :
    ∀ (ws : List WeatherData) (acc : List RescheduleOption),
      acc.all (fun o => o.instructor_available) = true →
      (collectGoodOptions l m ws acc).all (fun o => o.instructor_available) = true
  | [], acc, h => h
  | w :: rest, acc, h => by
    rw [collectGoodOptions]
    split_ifs with h3 hs
    · exact h
    · exact collectGoodOptions_all_avail l m rest _ (by simp_all)
    · exact collectGoodOptions_all_avail l m rest acc h

lemma collectGoodOptions_all_unsafe (l : TrainingLevel) (m : WeatherMinimum) :
    ∀ (ws : List WeatherData) (acc : List RescheduleOption),
      (∀ w ∈ ws, (is_flight_safe l w m).1 = false) →
      collectGoodOptions l m ws acc = acc
  | [], acc, _ => rfl
  | w :: rest, acc, h => by
    rw [collectGoodOptions]
    split_ifs with h3 hs
    · rfl
    · have := h w (by simp)
      rw [this] at hs
      cases hs
    · exact collectGoodOptions_all_unsafe l m rest acc (fun w2 hw2 => h w2 (by simp [hw2]))

lemma defaultMinimumsFor_isSome (l : TrainingLevel) :
    ∃ m, defaultMinimumsFor l = some m := by
  cases l <;> exact ⟨_, rfl⟩

lemma fallback_length (b : Booking) (s : Student) (forecast : List WeatherData)
    (sched : List Booking) :
    ∃ opts, generate_fallback_options b s forecast sched = .ok opts ∧ opts.length = 3 := by
  obtain ⟨m, hm⟩ := defaultMinimumsFor_isSome s.training_level
  unfold generate_fallback_options
  rw [hm]
  refine ⟨_, rfl, ?_⟩
  rw [padPlaceholders_eq]
  have h1 : (collectGoodOptions s.training_level m (forecast.take 14) []).length ≤ 3 :=
    collectGoodOptions_length_le _ _ _ _ (by simp)
  split_ifs with h2
  · simp only [List.length_append, List.length_map, List.length_range, List.length_take]
    omega
  · simp only [List.length_append, List.length_map, List.length_range]
    omega

/-! ## Claim theorems -/

/-- C8: for every training level and every weather sample (any visibility,
wind speed, optional ceiling, temperature, thunderstorm and icing flags),
`calculate_weather_score` returns a value v with 0 <= v <= 10. -/
theorem weather_score_bounded (l : TrainingLevel) (w : WeatherData) :
    0 ≤ calculate_weather_score l w ∧ calculate_weather_score l w ≤ 10 := by
  simp only [calculate_weather_score, PERFECT_SCORE]
  exact ⟨le_min (le_max_right _ _) (by norm_num), min_le_right _ _⟩

/-- C1: monotonic relaxation of safety — for every weather sample, if
`is_flight_safe` is safe under the StudentPilot entry of
`default_weather_minimums` then it is safe under the PrivatePilot entry,
and if safe under the PrivatePilot entry then safe under the
InstrumentRated entry. -/
theorem safety_monotonic_relaxation (w : WeatherData) :
    ((is_flight_safe .StudentPilot w studentMinimums).1 = true →
      (is_flight_safe .PrivatePilot w privateMinimums).1 = true)
    ∧ ((is_flight_safe .PrivatePilot w privateMinimums).1 = true →
      (is_flight_safe .InstrumentRated w instrumentMinimums).1 = true) := by
  simp only [safe_iff_reasons_nil]
  obtain ⟨vis, wind, ceil, temp, cond, ts, ic, dt⟩ := w
  constructor <;>
  · cases ts <;> cases ic <;> cases ceil <;>
      simp_all [flightReasons, studentMinimums, privateMinimums, instrumentMinimums,
        List.append_eq_nil]
    all_goals intros
    all_goals repeat' apply And.intro
    all_goals linarith

/-- C1 witness: a concrete sample safe for the student level is, by the
theorem, safe for the private and instrument levels under their default
minimums. -/
theorem safety_monotonic_relaxation_witness :
    (is_flight_safe .StudentPilot (mkSample 10 8 (some 4000) false false 0)
      studentMinimums).1 = true
    ∧ (is_flight_safe .PrivatePilot (mkSample 10 8 (some 4000) false false 0)
      privateMinimums).1 = true
    ∧ (is_flight_safe .InstrumentRated (mkSample 10 8 (some 4000) false false 0)
      instrumentMinimums).1 = true := by
  have h1 : (is_flight_safe .StudentPilot (mkSample 10 8 (some 4000) false false 0)
      studentMinimums).1 = true := by decide
  have h2 := (safety_monotonic_relaxation (mkSample 10 8 (some 4000) false false 0)).1 h1
  exact ⟨h1, h2, (safety_monotonic_relaxation (mkSample 10 8 (some 4000) false false 0)).2 h2⟩

/-- C3: severity classification of the 5-minute alert sweep —
`determine_severity` returns Severe whenever thunderstorms are present or
visibility < 1 mi regardless of score; otherwise Severe iff score < 4.0,
High iff 4.0 <= score < 6.0, Moderate iff 6.0 <= score < 7.5, Low iff
7.5 <= score < 9.0, Clear iff score >= 9.0; and an alert is persisted and
published for a booking iff the resulting severity is not Clear (the
`score < 9.0` emission guard coincides with severity != Clear for scores
produced by `calculate_weather_score`). -/
theorem severity_classification_and_guard (score : ℚ) (w : WeatherData)
    (l : TrainingLevel) :
    ((w.has_thunderstorms = true ∨ w.visibility_miles < 1) →
      determine_severity score w = .Severe)
    ∧ (w.has_thunderstorms = false → ¬ w.visibility_miles < 1 →
        ((determine_severity score w = .Severe ↔ score < 4)
        ∧ (determine_severity score w = .High ↔ 4 ≤ score ∧ score < 6)
        ∧ (determine_severity score w = .Moderate ↔ 6 ≤ score ∧ score < 7.5)
        ∧ (determine_severity score w = .Low ↔ 7.5 ≤ score ∧ score < 9)
        ∧ (determine_severity score w = .Clear ↔ 9 ≤ score)))
    ∧ (alertEmitted l w = true ↔
        determine_severity (calculate_weather_score l w) w ≠ .Clear) := by
  refine ⟨?_, ?_, ?_⟩
  · intro h
    unfold determine_severity
    rcases h with h | h
    · rw [if_pos h]
    · split_ifs <;> simp_all
  · intro hts hvis
    unfold determine_severity
    rw [if_neg (by simp [hts]), if_neg hvis]
    refine ⟨?_, ?_, ?_, ?_, ?_⟩ <;> split_ifs <;> simp_all <;>
      first
        | linarith
        | (constructor <;> linarith)
        | (rintro ⟨h1, h2⟩; linarith)
        | (intro h1; linarith)
  · rw [alertEmitted, decide_eq_true_eq]
    constructor
    · intro h hclear
      unfold determine_severity at hclear
      split_ifs at hclear <;> simp_all
    · intro h
      by_contra hc
      push_neg at hc
      rcases hts : w.has_thunderstorms with _ | _
      · by_cases hv : w.visibility_miles < 1
        · exact absurd (score_lt_nine_of_low_visibility l w hv) (not_lt.2 hc)
        · apply h
          unfold determine_severity
          rw [if_neg (by simp [hts]), if_neg hv, if_neg (by linarith),
            if_neg (by linarith), if_neg (by linarith), if_neg (by linarith)]
      · exact absurd (score_lt_nine_of_thunderstorms l w hts) (not_lt.2 hc)

/-- C3 witness: the theorem applied at concrete samples — a score of 5 in
calm weather classifies High, thunderstorms force Severe, and a poor
concrete sample has a non-Clear severity exactly as its emission guard
fires. -/
theorem severity_classification_and_guard_witness :
    determine_severity 5 (mkSample 10 20 none false false 0) = .High
    ∧ determine_severity 10 (mkSample 10 5 none true false 0) = .Severe
    ∧ determine_severity
        (calculate_weather_score .PrivatePilot (mkSample 2 25 (some 1000) false true 0))
        (mkSample 2 25 (some 1000) false true 0) ≠ .Clear := by
  refine ⟨?_, ?_, ?_⟩
  · exact (((severity_classification_and_guard 5 (mkSample 10 20 none false false 0)
      .PrivatePilot).2.1 (by decide) (by decide)).2.1).mpr ⟨by norm_num, by norm_num⟩
  · exact (severity_classification_and_guard 10 (mkSample 10 5 none true false 0)
      .PrivatePilot).1 (Or.inl (by decide))
  · refine ((severity_classification_and_guard 0 (mkSample 2 25 (some 1000) false true 0)
      .PrivatePilot).2.2).mp ?_
    rw [alertEmitted, decide_eq_true_eq]
    norm_num [calculate_weather_score, scoreThunderstorms, scoreIcing, scoreVisibility,
      scoreWind, scoreCeiling, scoreStudentWind, mkSample, PERFECT_SCORE,
      THUNDERSTORM_PENALTY, ICING_PENALTY, IDEAL_VISIBILITY_MI, VISIBILITY_PENALTY_FACTOR,
      CALM_WIND_KT, MAX_WIND_PENALTY_KT, WIND_PENALTY_FACTOR, IDEAL_CEILING_FT,
      CEILING_PENALTY_FACTOR, STUDENT_HIGH_WIND_THRESHOLD_KT, STUDENT_HIGH_WIND_PENALTY]

/-- C4 counterexample: with minimums that disallow IMC (and have no other
binding limit), a sample with an absent ceiling and visibility 2 mi (< 3)
is reported SAFE and carries no IMC violation message — the source's IMC
check is skipped entirely when the ceiling is absent. -/
theorem imc_absent_ceiling_cex :
    cexImcMinimums.allow_imc = false
    ∧ (mkSample 2 5 none false false 0).visibility_miles < 3
    ∧ (mkSample 2 5 none false false 0).ceiling_ft = none
    ∧ (is_flight_safe .PrivatePilot (mkSample 2 5 none false false 0)
        cexImcMinimums).1 = true
    ∧ flightReasons .PrivatePilot (mkSample 2 5 none false false 0) cexImcMinimums = [] := by
  refine ⟨rfl, by norm_num [mkSample], rfl, by decide, by decide⟩

/-- C4 amended: for every training level and minimums with allow_imc = false,
and every sample whose ceiling is PRESENT and below 1000 ft or with
visibility below 3 mi, `is_flight_safe` reports unsafe and its reason list
contains the IMC violation message; when the ceiling is absent the IMC
check is skipped. -/
theorem imc_violation_with_ceiling (l : TrainingLevel) (m : WeatherMinimum)
    (w : WeatherData) (c : ℚ) (him : m.allow_imc = false) (hc : w.ceiling_ft = some c)
    (h : c < 1000 ∨ w.visibility_miles < 3) :
    (is_flight_safe l w m).1 = false
    ∧ "IMC conditions not allowed for this training level" ∈ flightReasons l w m := by
  have hmem : "IMC conditions not allowed for this training level" ∈
      flightReasons l w m := by
    unfold flightReasons
    refine List.mem_append_right _ ?_
    rw [him, hc]
    simp only [Bool.false_eq_true, if_false]
    rw [if_pos h]
    exact List.mem_singleton_self _
  have hne : flightReasons l w m ≠ [] := List.ne_nil_of_mem hmem
  refine ⟨?_, hmem⟩
  rw [is_flight_safe_fst]
  cases hflat : flightReasons l w m with
  | nil => exact absurd hflat hne
  | cons a t => rfl

/-- C4 amended witness: a concrete 500 ft ceiling under the default private
minimums is unsafe with the IMC message among the reasons. -/
theorem imc_violation_with_ceiling_witness :
    (is_flight_safe .PrivatePilot (mkSample 10 5 (some 500) false false 0)
      privateMinimums).1 = false
    ∧ "IMC conditions not allowed for this training level" ∈
        flightReasons .PrivatePilot (mkSample 10 5 (some 500) false false 0)
          privateMinimums :=
  imc_violation_with_ceiling .PrivatePilot privateMinimums
    (mkSample 10 5 (some 500) false false 0) 500 rfl rfl (Or.inl (by norm_num))

/-- C2 counterexample: on the successful external-generation path with a
4-option response, `generate_reschedule_options` returns 4 options, not
exactly 3. -/
theorem suggest_exactly_three_cex :
    (generate_reschedule_options [] 0
      (.ok [cexOption, cexOption, cexOption, cexOption]) cexBooking cexStudent []
      []).toOption.map (fun r => r.options.length) = some 4
    ∧ (generate_reschedule_options [] 0
      (.ok [cexOption, cexOption, cexOption, cexOption]) cexBooking cexStudent []
      []).toOption.map (fun r => r.options.length) ≠ some 3 := by
  have h : (generate_reschedule_options [] 0
      (.ok [cexOption, cexOption, cexOption, cexOption]) cexBooking cexStudent []
      []).toOption.map (fun r => r.options.length) = some 4 := rfl
  exact ⟨h, by rw [h]; simp⟩

/-- C2 amended: for every booking, student, forecast list (including the
empty list) and busy schedule, `generate_reschedule_options` always
succeeds and returns AT LEAST 3 options on every path (cache-hit and
external paths return whatever list of >= 3 options was cached/generated),
and the fallback path returns exactly 3 options and never fails. -/
theorem suggest_at_least_three (cache : CacheMap) (now : Int)
    (ai : Except String (List RescheduleOption)) (b : Booking) (s : Student)
    (forecast : List WeatherData) (sched : List Booking) :
    (∃ r, generate_reschedule_options cache now ai b s forecast sched = .ok r
      ∧ 3 ≤ r.options.length)
    ∧ (∃ opts, generate_fallback_options b s forecast sched = .ok opts
      ∧ opts.length = 3) := by
  obtain ⟨fopts, hf, hflen⟩ := fallback_length b s forecast sched
  refine ⟨?_, fopts, hf, hflen⟩
  unfold generate_reschedule_options
  cases hget : AiCache.get cache (b.id ++ "_" ++ toString b.scheduled_date) now with
  | some cached =>
    simp only [hget]
    by_cases h3 : cached.options.length ≥ 3
    · rw [if_pos h3]
      exact ⟨_, rfl, h3⟩
    · rw [if_neg h3]
      dsimp only
      cases ai with
      | ok options =>
        dsimp only
        by_cases ho : options.length ≥ 3
        · rw [if_pos ho]
          exact ⟨_, rfl, ho⟩
        · rw [if_neg ho, hf]
          exact ⟨_, rfl, by dsimp only; omega⟩
      | error e =>
        dsimp only
        rw [hf]
        exact ⟨_, rfl, by dsimp only; omega⟩
  | none =>
    simp only [hget]
    cases ai with
    | ok options =>
      dsimp only
      by_cases ho : options.length ≥ 3
      · rw [if_pos ho]
        exact ⟨_, rfl, ho⟩
      · rw [if_neg ho, hf]
        exact ⟨_, rfl, by dsimp only; omega⟩
    | error e =>
      dsimp only
      rw [hf]
      exact ⟨_, rfl, by dsimp only; omega⟩

/-- C5 counterexample: with a forecast whose first sample is unsafe and
whose second (timestamp 2000) is safe, the fallback returns the timestamp
2000 sample twice — once as a good-weather option and once as a marginal
option — because the marginal scan skips `options.len()` samples from the
START of the forecast, not the samples already used. -/
theorem marginal_reuse_cex :
    (generate_fallback_options cexBooking cexStudent cexForecastReuse []).toOption.map
      (fun opts => opts.map RescheduleOption.date_time) = some [2000, 2000, 259200]
    ∧ cexForecastReuse.map WeatherData.date_time = [1000, 2000] :=
  ⟨rfl, rfl⟩

/-- C5 amended: the marginal phase scans the forecast from the position
equal to the number of already-collected options onward (not the unused
samples).  When no sample of the scanned prefix is safe, no good-weather
option is collected, the marginal options are exactly the first (up to 3)
forecast samples, and — for pairwise-distinct forecast timestamps — no
forecast sample then appears more than once among the marginal options. -/
theorem marginal_scan_all_unsafe (b : Booking) (s : Student)
    (forecast : List WeatherData) (sched : List Booking) (m : WeatherMinimum)
    (hm : defaultMinimumsFor s.training_level = some m)
    (hbad : ∀ w ∈ forecast.take 14, (is_flight_safe s.training_level w m).1 = false)
    (hnd : (forecast.map WeatherData.date_time).Nodup) :
    generate_fallback_options b s forecast sched =
      .ok (padPlaceholders b ((forecast.take 3).map (marginalOption s.training_level)))
    ∧ ((forecast.take 3).map
        (fun w => (marginalOption s.training_level w).date_time)).Nodup := by
  have hgood : collectGoodOptions s.training_level m (forecast.take 14) [] = [] :=
    collectGoodOptions_all_unsafe _ _ _ _ hbad
  constructor
  · unfold generate_fallback_options
    rw [hm]
    dsimp only
    rw [hgood]
    simp
  · have heq : (forecast.take 3).map
        (fun w => (marginalOption s.training_level w).date_time)
        = (forecast.map WeatherData.date_time).take 3 := by
      simp [marginalOption, List.map_take]
    rw [heq]
    exact hnd.sublist (List.take_sublist _ _)

/-- C5 amended witness: the theorem applied to the concrete single-sample
unsafe forecast. -/
theorem marginal_scan_all_unsafe_witness :
    generate_fallback_options cexBooking cexStudent cexForecastShort [] =
      .ok (padPlaceholders cexBooking ((cexForecastShort.take 3).map
        (marginalOption .StudentPilot)))
    ∧ ((cexForecastShort.take 3).map
        (fun w => (marginalOption .StudentPilot w).date_time)).Nodup :=
  marginal_scan_all_unsafe cexBooking cexStudent cexForecastShort [] studentMinimums
    rfl (by decide) (by decide)

/-- C6 counterexample: with the single-sample unsafe forecast the fallback
returns 1 marginal entry plus 2 placeholders, but the first placeholder
sits at original + 2 days (172800 s past the epoch-0 booking), not at
original + 1 day (86400 s). -/
theorem placeholder_offset_cex :
    (generate_fallback_options cexBooking cexStudent cexForecastShort []).toOption.map
      (fun opts => opts.map (fun o => (o.date_time, o.instructor_available)))
      = some [(1000, true), (172800, false), (259200, false)]
    ∧ cexBooking.scheduled_date + 1 * 86400 = 86400
    ∧ (86400 : Int) ≠ 172800 := by
  refine ⟨rfl, rfl, by decide⟩

/-- C6 amended: whenever the forecast yields fewer than 3 options, the
fallback pads the remaining slots with placeholders at
original scheduled date + N days where N starts at (number of options
already present) + 1 and increases by 1 per slot — the first placeholder is
at +1 day only when the forecast contributed nothing; each placeholder has
the generic contact-instructor reason, weather_score = 5.0 and
instructor_available = false. -/
theorem placeholder_padding_offsets (b : Booking) (s : Student)
    (forecast : List WeatherData) (sched : List Booking) :
    (∃ pre, generate_fallback_options b s forecast sched =
      .ok (pre ++ (List.range (3 - pre.length)).map
        (fun i => placeholderOption b (pre.length + 1 + i))))
    ∧ (∀ n : Nat, (placeholderOption b n).date_time = b.scheduled_date + (n : Int) * 86400
        ∧ (placeholderOption b n).reason =
          "Please contact your instructor to schedule - limited weather data available"
        ∧ (placeholderOption b n).weather_score = 5
        ∧ (placeholderOption b n).instructor_available = false) := by
  constructor
  · obtain ⟨m, hm⟩ := defaultMinimumsFor_isSome s.training_level
    unfold generate_fallback_options
    rw [hm]
    dsimp only
    exact ⟨_, by rw [padPlaceholders_eq]⟩
  · intro n
    exact ⟨rfl, rfl, rfl, rfl⟩

/-- C7: cache round-trip and expiry — after `AiCache::set(K, R)`, a get(K)
performed strictly less than 6 hours after the write returns exactly R,
and a get(K) performed 6 hours or more after the write returns none (no
other write to K intervening). -/
theorem cache_roundtrip_expiry (c : CacheMap) (key : String) (r : RescheduleResponse)
    (t_write t_read : Int) (hle : t_write ≤ t_read) :
    (t_read - t_write < 6 * 3600 →
      AiCache.get (AiCache.set c key r t_write) key t_read = some r)
    ∧ (6 * 3600 ≤ t_read - t_write →
      AiCache.get (AiCache.set c key r t_write) key t_read = none) := by
  have hget : (AiCache.set c key r t_write).lookup key = some (r, t_write) := by
    simp [AiCache.set, List.lookup]
  obtain ⟨n, hn⟩ : ∃ n : Nat, t_read - t_write = (n : Int) :=
    ⟨(t_read - t_write).toNat, (Int.toNat_of_nonneg (by linarith)).symm⟩
  have hnum : num_hours (t_read - t_write) = ((n / 3600 : Nat) : Int) := by
    rw [hn]; rfl
  constructor <;> intro h
  · unfold AiCache.get
    rw [hget]
    dsimp only
    rw [if_pos (show num_hours (t_read - t_write) < AiCache.ttl_hours by
      rw [hnum, AiCache.ttl_hours]; omega)]
  · unfold AiCache.get
    rw [hget]
    dsimp only
    rw [if_neg (show ¬ num_hours (t_read - t_write) < AiCache.ttl_hours by
      rw [hnum, AiCache.ttl_hours]; omega)]

/-- C7 witness: the theorem at a concrete key and clock — a read 1 hour
after the write hits, a read exactly 6 hours after misses. -/
theorem cache_roundtrip_expiry_witness :
    AiCache.get (AiCache.set [] "k" ⟨[]⟩ 0) "k" 3600 = some ⟨[]⟩
    ∧ AiCache.get (AiCache.set [] "k" ⟨[]⟩ 0) "k" 21600 = none :=
  ⟨(cache_roundtrip_expiry [] "k" ⟨[]⟩ 0 3600 (by norm_num)).1 (by norm_num),
   (cache_roundtrip_expiry [] "k" ⟨[]⟩ 0 21600 (by norm_num)).2 (by norm_num)⟩

/-- C10: noninterference on the instructor schedule — the deterministic
fallback and the prompt builder ignore the instructor_schedule argument
entirely (equal outputs for any two schedules), hardcoding
instructor_available = true for every forecast-derived option (good-weather
and marginal alike) and false for every placeholder. -/
theorem fallback_schedule_noninterference (b : Booking) (s : Student)
    (forecast : List WeatherData) (sched1 sched2 : List Booking) :
    generate_fallback_options b s forecast sched1 =
      generate_fallback_options b s forecast sched2
    ∧ build_prompt b s forecast sched1 = build_prompt b s forecast sched2
    ∧ (∀ m, defaultMinimumsFor s.training_level = some m →
        (collectGoodOptions s.training_level m (forecast.take 14) []).all
          (fun o => o.instructor_available) = true)
    ∧ (∀ w, (marginalOption s.training_level w).instructor_available = true)
    ∧ (∀ n, (placeholderOption b n).instructor_available = false) := by
  refine ⟨rfl, rfl, ?_, fun w => rfl, fun n => rfl⟩
  intro m hm
  exact collectGoodOptions_all_avail _ _ _ _ rfl

/-- C10 witness: the theorem at concrete inputs — an empty and a nonempty
busy schedule yield identical fallback output, and the good-weather options
collected from the concrete forecast all carry instructor_available. -/
theorem fallback_schedule_noninterference_witness :
    generate_fallback_options cexBooking cexStudent cexForecastShort [] =
      generate_fallback_options cexBooking cexStudent cexForecastShort [cexBooking]
    ∧ (collectGoodOptions .StudentPilot studentMinimums (cexForecastShort.take 14) []).all
        (fun o => o.instructor_available) = true :=
  ⟨(fallback_schedule_noninterference cexBooking cexStudent cexForecastShort []
      [cexBooking]).1,
   (fallback_schedule_noninterference cexBooking cexStudent cexForecastShort [] []).2.2.1
     studentMinimums rfl⟩

/-- C9: cache-write frame condition — `generate_reschedule_options` leaves
the cache unchanged on the cache-hit path and on every fallback path
(external error or fewer than 3 options); only the successful external
path with at least 3 options may write. -/
theorem cache_write_frame (cache : CacheMap) (now : Int)
    (ai : Except String (List RescheduleOption)) (b : Booking) (s : Student)
    (forecast : List WeatherData) (sched : List Booking) (r : GenResult)
    (hr : generate_reschedule_options cache now ai b s forecast sched = .ok r) :
    ((∃ resp, AiCache.get cache (b.id ++ "_" ++ toString b.scheduled_date) now = some resp
        ∧ 3 ≤ resp.options.length) → r.cache = cache)
    ∧ ((∀ opts, ai = .ok opts → opts.length < 3) → r.cache = cache) := by
  simp only [generate_reschedule_options] at hr
  constructor
  · rintro ⟨resp, hresp, h3⟩
    rw [hresp] at hr
    dsimp only at hr
    rw [if_pos h3] at hr
    cases hr
    rfl
  · intro hlt
    cases hget : AiCache.get cache (b.id ++ "_" ++ toString b.scheduled_date) now with
    | some cached =>
      rw [hget] at hr
      dsimp only at hr
      by_cases h3 : cached.options.length ≥ 3
      · rw [if_pos h3] at hr
        cases hr
        rfl
      · rw [if_neg h3] at hr
        dsimp only at hr
        cases ai with
        | ok options =>
          dsimp only at hr
          have hl := hlt options rfl
          rw [if_neg (by omega)] at hr
          obtain ⟨fopts, hf, _⟩ := fallback_length b s forecast sched
          rw [hf] at hr
          cases hr
          rfl
        | error e =>
          dsimp only at hr
          obtain ⟨fopts, hf, _⟩ := fallback_length b s forecast sched
          rw [hf] at hr
          cases hr
          rfl
    | none =>
      rw [hget] at hr
      dsimp only at hr
      cases ai with
      | ok options =>
        dsimp only at hr
        have hl := hlt options rfl
        rw [if_neg (by omega)] at hr
        obtain ⟨fopts, hf, _⟩ := fallback_length b s forecast sched
        rw [hf] at hr
        cases hr
        rfl
      | error e =>
        dsimp only at hr
        obtain ⟨fopts, hf, _⟩ := fallback_length b s forecast sched
        rw [hf] at hr
        cases hr
        rfl

/-- C9 witness: the theorem at a concrete run — an external error with an
empty cache leaves the cache empty after the fallback path. -/
theorem cache_write_frame_witness :
    (generate_reschedule_options [] 0 (.error "offline") cexBooking cexStudent []
      []).toOption.map GenResult.cache = some [] := by
  have hr : generate_reschedule_options [] 0 (.error "offline") cexBooking cexStudent [] []
      = .ok ⟨[placeholderOption cexBooking 1, placeholderOption cexBooking 2,
        placeholderOption cexBooking 3], []⟩ := rfl
  have h := (cache_write_frame [] 0 (.error "offline") cexBooking cexStudent [] [] _ hr).2
    (fun opts hop => nomatch hop)
  rw [hr]
  exact congrArg some h

end FlightWeather
